import Mathlib

/-!
Shallow embedding of the `dff_structure` pipeline component core
(`src/pipeline/core/component.py`) and the pieces of the surrounding
package it depends on.  Pure functions of the Python source become Lean
functions; mutation of the session state (`Context.framework_states`)
becomes explicit state passing; a Python statement that can raise becomes
a function into `Except`.  Python `dict`s are embedded as association
lists with unique keys, where insertion replaces in place (preserving
insertion order) and otherwise appends, matching Python dict semantics.
-/

namespace DffStructure

/-- Modelled from the spec: the execution state tag enum
`NOT_RUN | RUNNING | FINISHED | FAILED` declared in the package's
`types` module (not under `src/`); a plain Python `Enum` whose members
are identified by their name strings. -/
inductive ComponentExecutionState : Type
  | NOT_RUN
  | RUNNING
  | FINISHED
  | FAILED
deriving DecidableEq

/-- The Python `.name` attribute of an execution-state member:
the member's declared name as a string. -/
def ComponentExecutionState.name : ComponentExecutionState → String
  | .NOT_RUN => "NOT_RUN"
  | .RUNNING => "RUNNING"
  | .FINISHED => "FINISHED"
  | .FAILED => "FAILED"

/-- Python `Enum` class indexing (`ComponentExecutionState[key]`) looks the
key up in the member map, which is keyed by the member name strings;
any string that is not a member name is absent. -/
def ComponentExecutionState.fromName : String → Option ComponentExecutionState :=
  fun s =>
    if s = "NOT_RUN" then some .NOT_RUN
    else if s = "RUNNING" then some .RUNNING
    else if s = "FINISHED" then some .FINISHED
    else if s = "FAILED" then some .FAILED
    else none

/-- The kind of Python value that `get_state` can feed to
`ComponentExecutionState[...]`: a stored tag string, an enum member
(the caller-supplied default, passed through unconverted by the source),
or `None`. -/
inductive EnumIndexArg : Type
  | str (s : String)
  | member (v : ComponentExecutionState)
  | noneVal
deriving DecidableEq

/-- `ComponentExecutionState[arg]`: only a recognized member-name string
succeeds; an enum member object or `None` is not a key of the member map,
so Python raises `KeyError` (embedded as `none`). -/
def ComponentExecutionState.getItem : EnumIndexArg → Option ComponentExecutionState
  | .str s => ComponentExecutionState.fromName s
  | .member _ => none
  | .noneVal => none

/-- Runtime errors that the embedded methods can raise. -/
inductive PyErr : Type
  | keyError
deriving DecidableEq

/-- Errors raised by `PipelineComponent.__init__`:
the name-validation `Exception` (component.py line 79) and the
asynchrony-validation `Exception` (component.py line 82). -/
inductive InitError : Type
  | invalidName
  | cantBeAsync
deriving DecidableEq

/-- Modelled from the spec: the reserved namespace key (`PIPELINE_STATE_KEY`
from the package's `types` module, not under `src/`) under which the
path-to-state sub-mapping lives inside `ctx.framework_states`. -/
def PIPELINE_STATE_KEY : String := "PIPELINE"

/-- The reserved sub-mapping: component path (`self.path`, an optional
string) to stored execution-state tag.  `_set_state` always stores
`value.name`, a string, so the stored values are strings. -/
abbrev StateDict : Type := List (Option String × String)

/-- Python `dict` lookup on an association list with unique keys:
the first (and only) binding of the key. -/
def dictGet {κ α : Type} [DecidableEq κ] : List (κ × α) → κ → Option α
  | [], _ => none
  | e :: rest, q => if q = e.1 then some e.2 else dictGet rest q

/-- Python `dict` assignment `d[k] = v`: replaces the binding in place if
the key is present (keeping its position, as Python dicts preserve
insertion order), otherwise appends the new binding at the end. -/
def dictSet {κ α : Type} [DecidableEq κ] : List (κ × α) → κ → α → List (κ × α)
  | [], k, v => [(k, v)]
  | e :: rest, k, v => if k = e.1 then (k, v) :: rest else e :: dictSet rest k v

/-- The session state (`Context` from the dialog-flow engine): the only part
the component core touches is the mutable `framework_states` dict, of which
only the reserved key's sub-dict is ever read or written here. -/
structure Context : Type where
  framework_states : List (String × StateDict)
deriving DecidableEq

/-- `copy.deepcopy` applied to the (pure) embedded value of the state
sub-mapping: on pure values a deep copy is the value itself; the point of
the copy in Python — that later mutation of the session state cannot reach
the snapshot — is automatic in the pure embedding. -/
def deepcopy (d : StateDict) : StateDict := d

/-- The stage tag of an extra handler (`ExtraHandlerType` from the
package's `types` module, not under `src/`); modelled from the spec:
"a stage tag (`BEFORE`/`AFTER`)". -/
inductive ExtraHandlerType : Type
  | BEFORE
  | AFTER
deriving DecidableEq

/-- The tag identifying a global extra handler registration
(`GlobalExtraHandlerType` from the package's `types` module, not under
`src/`); modelled from the spec: "identified by a `BEFORE`/`AFTER` tag". -/
inductive GlobalExtraHandlerType : Type
  | BEFORE
  | AFTER
deriving DecidableEq

/-- Modelled from the spec: a before/after instrumentation handler
(`BeforeHandler`/`AfterHandler` from `service/extra.py`, not under
`src/`): "an ordered sequence of callables ... collectively tagged with
... a stage tag".  The callables are opaque Python values, embedded as an
arbitrary type `F`. -/
structure ExtraHandler (F : Type) : Type where
  functions : List F
  stage : ExtraHandlerType

/-- Modelled from the spec: the `BeforeHandler` constructor wraps the given
callable list with stage tag `BEFORE`. -/
def BeforeHandler {F : Type} (fns : List F) : ExtraHandler F :=
  ⟨fns, ExtraHandlerType.BEFORE⟩

/-- Modelled from the spec: the `AfterHandler` constructor wraps the given
callable list with stage tag `AFTER`. -/
def AfterHandler {F : Type} (fns : List F) : ExtraHandler F :=
  ⟨fns, ExtraHandlerType.AFTER⟩

/-- Modelled from the spec: `always_start_condition` from `conditions.py`
(not under `src/`): "`always`: constant true". -/
def always_start_condition : Context → Bool := fun _ => true

/-- The fields of `PipelineComponent` as assigned by `__init__`
(component.py lines 59-76).  Handler callables are opaque, embedded as the
type parameter `F`. -/
structure PipelineComponent (F : Type) : Type where
  timeout : Option Float
  requested_async_flag : Option Bool
  calculated_async_flag : Bool
  start_condition : Context → Bool
  name : Option String
  path : Option String
  before_handler : ExtraHandler F
  after_handler : ExtraHandler F

/-- The name-validation condition of `__init__` (component.py line 78):
`name is not None and (name == "" or "." in name)`.  Membership of the
single-character separator in a Python string is containment of that
character. -/
def nameInvalid (name : Option String) : Bool :=
  match name with
  | some n => n = "" || n.data.any (fun ch => ch = '.')
  | none => false

/-- `PipelineComponent.__init__` (component.py lines 48-82): assigns the
fields (defaulting the start condition and wrapping the handler builders),
then raises if the name is blank or contains a dot (line 78: the check
runs only when a name was given), then raises if the component cannot be
asynchronous (`not calculated_async_flag`) while asynchrony was requested
(`requested_async_flag` truthy, i.e. `Some true`). -/
def PipelineComponent.init {F : Type}
    (before_handler : Option (List F)) (after_handler : Option (List F))
    (timeout : Option Float) (requested_async_flag : Option Bool)
    (calculated_async_flag : Bool) (start_condition : Option (Context → Bool))
    (name : Option String) (path : Option String) :
    Except InitError (PipelineComponent F) :=
  let comp : PipelineComponent F :=
    ⟨timeout, requested_async_flag, calculated_async_flag,
      start_condition.getD always_start_condition, name, path,
      BeforeHandler (before_handler.getD []), AfterHandler (after_handler.getD [])⟩
  if nameInvalid name then Except.error InitError.invalidName
  else if !calculated_async_flag && requested_async_flag == some true then
    Except.error InitError.cantBeAsync
  else Except.ok comp

/-- `PipelineComponent._set_state` (component.py lines 84-95): create the
reserved sub-dict if absent, then store `value.name` under `self.path`. -/
def PipelineComponent._set_state {F : Type} (c : PipelineComponent F)
    (ctx : Context) (value : ComponentExecutionState) : Context :=
  let fs :=
    if (dictGet ctx.framework_states PIPELINE_STATE_KEY).isSome then
      ctx.framework_states
    else dictSet ctx.framework_states PIPELINE_STATE_KEY []
  let sub := (dictGet fs PIPELINE_STATE_KEY).getD []
  Context.mk (dictSet fs PIPELINE_STATE_KEY (dictSet sub c.path value.name))

/-- `PipelineComponent.get_state` (component.py lines 97-109):
`ctx.framework_states[PIPELINE_STATE_KEY]` raises `KeyError` when the
reserved key is absent; otherwise `.get(self.path, default if default is
not None else None)` yields the stored tag string, or the caller-supplied
default *member itself* (not its name — the source passes `default`
through unconverted), or `None`; the result is then fed to
`ComponentExecutionState[...]`. -/
def PipelineComponent.get_state {F : Type} (c : PipelineComponent F)
    (ctx : Context) (default : Option ComponentExecutionState) :
    Except PyErr ComponentExecutionState :=
  match dictGet ctx.framework_states PIPELINE_STATE_KEY with
  | none => Except.error PyErr.keyError
  | some sub =>
    let arg : EnumIndexArg :=
      match dictGet sub c.path with
      | some s => EnumIndexArg.str s
      | none =>
        match default with
        | some d => EnumIndexArg.member d
        | none => EnumIndexArg.noneVal
    match ComponentExecutionState.getItem arg with
    | some st => Except.ok st
    | none => Except.error PyErr.keyError

/-- `PipelineComponent.asynchronous` (component.py line 131):
`self.calculated_async_flag if self.requested_async_flag is None else
self.requested_async_flag`. -/
def PipelineComponent.asynchronous {F : Type} (c : PipelineComponent F) : Bool :=
  match c.requested_async_flag with
  | none => c.calculated_async_flag
  | some b => b

/-- What `PipelineComponent.__call__` hands back to the caller: either an
awaitable (`asyncio.wait_for` wrapping an independently cancellable
`asyncio.create_task` of `_run`, with the given timeout), or the result of
running `_run` inline to completion. -/
inductive CallPlan : Type
  | awaitableTask (timeout : Option Float)
  | inlineResult (result : Option Context)

/-- `PipelineComponent.__call__` (component.py lines 160-174): if the
resolved `asynchronous` property holds, schedule `_run` as a cancellable
task wrapped by `asyncio.wait_for` with `self.timeout`; otherwise await
`_run` inline.  The body of the abstract `_run` is opaque, so its inline
outcome is an input (`run_result`). -/
def PipelineComponent.call {F : Type} (c : PipelineComponent F)
    (run_result : Option Context) : CallPlan :=
  if c.asynchronous then CallPlan.awaitableTask c.timeout
  else CallPlan.inlineResult run_result

/-- The outcome of awaiting the selected extra handler inside the `try`
block of `run_extra_handler` (the handler bodies are opaque): it finishes,
it raises `asyncio.TimeoutError`, or it raises some other error. -/
inductive AwaitOutcome : Type
  | completed
  | timedOut
  | raised (e : PyErr)
deriving DecidableEq

/-- A log record emitted by the component core; the only one is the
`logger.warning` for a timed-out extra handler (component.py line 146),
which names the component and the handler's stage. -/
inductive LogEntry : Type
  | extraHandlerTimeoutWarning (componentName : Option String) (stage : ExtraHandlerType)

/-- `PipelineComponent.run_extra_handler` (component.py lines 133-146):
select the before- or after-handler by stage; await it (outcome supplied,
since its callables are opaque) inside a `try` that catches only
`asyncio.TimeoutError`, logging a warning and returning normally on
timeout; any other error propagates.  Returns the log records emitted
together with normal return (`Except.ok`) or a propagated error. -/
def PipelineComponent.run_extra_handler {F : Type} (c : PipelineComponent F)
    (stage : ExtraHandlerType) (outcome : AwaitOutcome) :
    List LogEntry × Except PyErr Unit :=
  let extra_handler : Option (ExtraHandler F) :=
    match stage with
    | ExtraHandlerType.BEFORE => some c.before_handler
    | ExtraHandlerType.AFTER => some c.after_handler
  match extra_handler with
  | none => ([], Except.ok ())
  | some h =>
    match outcome with
    | AwaitOutcome.completed => ([], Except.ok ())
    | AwaitOutcome.timedOut =>
      ([LogEntry.extraHandlerTimeoutWarning c.name h.stage], Except.ok ())
    | AwaitOutcome.raised e => ([], Except.error e)

/-- `PipelineComponent.add_extra_handler` (component.py lines 176-187):
pick `before_handler` when the tag is `GlobalExtraHandlerType.BEFORE`,
`after_handler` otherwise, and append the callable to that handler's
`functions` list. -/
def PipelineComponent.add_extra_handler {F : Type} (c : PipelineComponent F)
    (global_extra_handler_type : GlobalExtraHandlerType) (extra_handler : F) :
    PipelineComponent F :=
  if global_extra_handler_type = GlobalExtraHandlerType.BEFORE then
    ⟨c.timeout, c.requested_async_flag, c.calculated_async_flag,
      c.start_condition, c.name, c.path,
      ⟨c.before_handler.functions ++ [extra_handler], c.before_handler.stage⟩,
      c.after_handler⟩
  else
    ⟨c.timeout, c.requested_async_flag, c.calculated_async_flag,
      c.start_condition, c.name, c.path,
      c.before_handler,
      ⟨c.after_handler.functions ++ [extra_handler], c.after_handler.stage⟩⟩

/-- The runtime-info snapshot returned by `_get_runtime_info`
(component.py lines 197-203): a record with the component's name and path
(each `"[None]"` when unset), timeout, resolved asynchronous flag, and a
deep copy of the full path-to-state mapping. -/
structure ServiceRuntimeInfo : Type where
  name : String
  path : String
  timeout : Option Float
  asynchronous : Bool
  execution_state : StateDict

/-- `PipelineComponent._get_runtime_info` (component.py lines 189-203):
builds the snapshot; `ctx.framework_states[PIPELINE_STATE_KEY]` is a
direct indexing, so it raises `KeyError` when the reserved key is
absent. -/
def PipelineComponent._get_runtime_info {F : Type} (c : PipelineComponent F)
    (ctx : Context) : Except PyErr ServiceRuntimeInfo :=
  match dictGet ctx.framework_states PIPELINE_STATE_KEY with
  | none => Except.error PyErr.keyError
  | some sub =>
    Except.ok
      ⟨c.name.getD "[None]", c.path.getD "[None]", c.timeout, c.asynchronous,
        deepcopy sub⟩

/-! ### Dictionary lemmas -/

theorem dictGet_dictSet_self {κ α : Type} [DecidableEq κ]
    (d : List (κ × α)) (k : κ) (v : α) :
    dictGet (dictSet d k v) k = some v := by
  induction d with
  | nil => simp [dictGet, dictSet]
  | cons e rest ih =>
    by_cases h : k = e.1
    · simp [dictGet, dictSet, h]
    · simp [dictGet, dictSet, h, ih]

theorem dictGet_dictSet_ne {κ α : Type} [DecidableEq κ]
    (d : List (κ × α)) (k q : κ) (v : α) (h : q ≠ k) :
    dictGet (dictSet d k v) q = dictGet d q := by
  induction d with
  | nil => simp [dictGet, dictSet, h]
  | cons e rest ih =>
    by_cases he : k = e.1
    · subst he
      simp [dictGet, dictSet, h]
    · by_cases hq : q = e.1
      · simp [dictGet, dictSet, he, hq]
      · simp [dictGet, dictSet, he, hq, ih]

/-- Decoding a member's own name string recovers the member. -/
theorem fromName_name (v : ComponentExecutionState) :
    ComponentExecutionState.fromName v.name = some v := by
  cases v <;> decide

/-- The shape of the session state after `_set_state`: the reserved key
holds the old sub-mapping (empty when it was absent) updated at the
component's path with the stored tag string. -/
theorem set_state_framework_states {F : Type} (c : PipelineComponent F)
    (ctx : Context) (v : ComponentExecutionState) :
    dictGet (c._set_state ctx v).framework_states PIPELINE_STATE_KEY =
      some (dictSet ((dictGet ctx.framework_states PIPELINE_STATE_KEY).getD [])
        c.path v.name) := by
  unfold PipelineComponent._set_state
  cases h : dictGet ctx.framework_states PIPELINE_STATE_KEY with
  | none =>
    simp only [h, Option.isSome_none, Bool.false_eq_true, if_false]
    simp [dictGet_dictSet_self]
  | some sub =>
    simp only [h, Option.isSome_some, if_true]
    simp [h, dictGet_dictSet_self]

/-! ### Claim theorems -/

/-- A concrete component for closed evaluations; the opaque handler
callable type is instantiated with `Nat`. -/
def sampleComponent (req : Option Bool) (calcFlag : Bool) (path : Option String) :
    PipelineComponent Nat :=
  ⟨none, req, calcFlag, always_start_condition, some "svc", path,
    BeforeHandler [], AfterHandler []⟩

/-- C1: evaluation of `get_state` at the failing input.  The claim (and
the method's own docstring) says a caller-supplied default is returned
when no state is recorded at the component's path, but the source passes
the default enum member itself (not its name string) into
`ComponentExecutionState[...]`, which therefore raises `KeyError`
(first conjunct — the code bug).  The other two parts of the claim do
hold: with no default and no record it fails (second conjunct), and an
unrecognized stored tag raises (third conjunct). -/
theorem c1_get_state_default_raises :
    (sampleComponent none false (some "root.svc")).get_state
        (Context.mk [(PIPELINE_STATE_KEY, [])])
        (some ComponentExecutionState.NOT_RUN) = Except.error PyErr.keyError ∧
    (sampleComponent none false (some "root.svc")).get_state
        (Context.mk [(PIPELINE_STATE_KEY, [])]) none = Except.error PyErr.keyError ∧
    (sampleComponent none false (some "root.svc")).get_state
        (Context.mk [(PIPELINE_STATE_KEY, [(some "root.svc", "BOGUS")])]) none
      = Except.error PyErr.keyError := by
  exact ⟨rfl, rfl, rfl⟩

/-- C2: the resolved `asynchronous` property equals the requested async
flag whenever that flag was set at construction (to true or to false),
and equals the calculated async flag when the requested flag is unset. -/
theorem c2_asynchronous_resolution {F : Type} (c : PipelineComponent F) :
    c.asynchronous =
      match c.requested_async_flag with
      | some b => b
      | none => c.calculated_async_flag := by
  cases h : c.requested_async_flag <;>
    simp [PipelineComponent.asynchronous, h]

/-- C5: `_set_state` writes the execution-state tag unconditionally under
the component's path, and it creates the reserved sub-mapping exactly when
it does not yet exist: when the reserved key was absent the new sub-mapping
is just the written binding, and when it was present that existing
sub-mapping is updated in place. -/
theorem c5_set_state_lazy_write {F : Type} (c : PipelineComponent F)
    (ctx : Context) (v : ComponentExecutionState) :
    (∃ sub', dictGet (c._set_state ctx v).framework_states PIPELINE_STATE_KEY
        = some sub' ∧ dictGet sub' c.path = some v.name) ∧
    (dictGet ctx.framework_states PIPELINE_STATE_KEY = none →
      dictGet (c._set_state ctx v).framework_states PIPELINE_STATE_KEY
        = some [(c.path, v.name)]) ∧
    (∀ sub, dictGet ctx.framework_states PIPELINE_STATE_KEY = some sub →
      dictGet (c._set_state ctx v).framework_states PIPELINE_STATE_KEY
        = some (dictSet sub c.path v.name)) := by
  refine ⟨⟨_, set_state_framework_states c ctx v, dictGet_dictSet_self _ _ _⟩,
    ?_, ?_⟩
  · intro h
    rw [set_state_framework_states c ctx v, h]
    rfl
  · intro sub h
    rw [set_state_framework_states c ctx v, h]
    rfl

/-- C5 witness: writing `RUNNING` into an empty session state creates the
reserved sub-mapping holding exactly the written binding. -/
theorem c5_set_state_lazy_write_witness :
    dictGet ((sampleComponent none false (some "p"))._set_state
        (Context.mk []) ComponentExecutionState.RUNNING).framework_states
        PIPELINE_STATE_KEY
      = some [(some "p", "RUNNING")] :=
  (c5_set_state_lazy_write (sampleComponent none false (some "p"))
    (Context.mk []) ComponentExecutionState.RUNNING).2.1 rfl

/-- C3: with a valid name, construction raises the asynchrony
configuration error exactly when the calculated async capability is false
and the requested async flag is true; every other combination of the two
flags does not raise on this account. -/
theorem c3_cant_be_async_iff {F : Type}
    (bh ah : Option (List F)) (t : Option Float) (req : Option Bool)
    (calcFlag : Bool) (sc : Option (Context → Bool)) (name path : Option String)
    (h : nameInvalid name = false) :
    (PipelineComponent.init bh ah t req calcFlag sc name path
        = Except.error InitError.cantBeAsync)
      ↔ (calcFlag = false ∧ req = some true) := by
  unfold PipelineComponent.init
  rw [h]
  cases calcFlag
  · rcases req with _ | b
    · simp
    · cases b <;> simp
  · rcases req with _ | b
    · simp
    · cases b <;> simp

/-- C3 witness: a component that cannot be asynchronous
(`calculated_async_flag = false`) with a requested async flag of true
fails construction with the asynchrony error. -/
theorem c3_cant_be_async_iff_witness :
    (PipelineComponent.init none none none (some true) false none (some "svc") none
        : Except InitError (PipelineComponent Nat))
      = Except.error InitError.cantBeAsync :=
  (c3_cant_be_async_iff none none none (some true) false none (some "svc") none
    (by decide)).mpr ⟨rfl, rfl⟩

/-- C4: construction with a name that is blank or contains the path
separator fails with the name configuration error; construction with a
valid name (and an admissible asynchrony request) succeeds and preserves
the assigned name unchanged. -/
theorem c4_name_validation {F : Type}
    (bh ah : Option (List F)) (t : Option Float) (req : Option Bool)
    (calcFlag : Bool) (sc : Option (Context → Bool)) (path : Option String)
    (n : String) :
    ((n = "" ∨ '.' ∈ n.data) →
      PipelineComponent.init bh ah t req calcFlag sc (some n) path
        = Except.error InitError.invalidName) ∧
    (¬(n = "" ∨ '.' ∈ n.data) → ¬(calcFlag = false ∧ req = some true) →
      ∃ c, PipelineComponent.init bh ah t req calcFlag sc (some n) path
          = Except.ok c ∧ c.name = some n) := by
  have hbad : nameInvalid (some n) = true ↔ (n = "" ∨ '.' ∈ n.data) := by
    simp [nameInvalid, List.any_eq_true]
  constructor
  · intro hv
    unfold PipelineComponent.init
    rw [hbad.mpr hv]
    rfl
  · intro hv hasync
    have hok : nameInvalid (some n) = false := by
      rcases hfalse : nameInvalid (some n) with _ | _
      · rfl
      · exact absurd (hbad.mp hfalse) hv
    have hcond : (!calcFlag && req == some true) = false := by
      rcases req with _ | b
      · cases calcFlag <;> rfl
      · cases b
        · cases calcFlag <;> rfl
        · cases calcFlag
          · exact absurd ⟨rfl, rfl⟩ hasync
          · rfl
    refine ⟨⟨t, req, calcFlag, sc.getD always_start_condition, some n, path,
      BeforeHandler (bh.getD []), AfterHandler (ah.getD [])⟩, ?_, rfl⟩
    unfold PipelineComponent.init
    rw [hok, hcond]
    rfl

/-- C4 witness: constructing with name `"a.b"` fails with the name
configuration error, and constructing with name `"a"` succeeds with the
name preserved. -/
theorem c4_name_validation_witness :
    (PipelineComponent.init none none none none false none (some "a.b") none
        : Except InitError (PipelineComponent Nat))
      = Except.error InitError.invalidName ∧
    ∃ c, (PipelineComponent.init none none none none false none (some "a") none
        : Except InitError (PipelineComponent Nat))
      = Except.ok c ∧ c.name = some "a" :=
  ⟨(c4_name_validation none none none none false none none "a.b").1
      (Or.inr (by decide)),
    (c4_name_validation none none none none false none none "a").2
      (by decide) (fun hc => by simp at hc)⟩

/-- C6: the invocation envelope schedules the core logic as a cancellable
task wrapped with the configured timeout exactly when the resolved
`asynchronous` property is true; when it is false the core logic runs
inline and the timeout field is ignored entirely (replacing it never
changes the plan). -/
theorem c6_call_envelope {F : Type} (c : PipelineComponent F)
    (r : Option Context) :
    (c.asynchronous = true → c.call r = CallPlan.awaitableTask c.timeout) ∧
    (c.asynchronous = false →
      c.call r = CallPlan.inlineResult r ∧
      ∀ t : Option Float,
        PipelineComponent.call
          ⟨t, c.requested_async_flag, c.calculated_async_flag,
            c.start_condition, c.name, c.path, c.before_handler,
            c.after_handler⟩ r
          = CallPlan.inlineResult r) := by
  constructor
  · intro h
    simp [PipelineComponent.call, h]
  · intro h
    have hsame : ∀ t : Option Float,
        PipelineComponent.asynchronous
          (⟨t, c.requested_async_flag, c.calculated_async_flag,
            c.start_condition, c.name, c.path, c.before_handler,
            c.after_handler⟩ : PipelineComponent F) = c.asynchronous :=
      fun _ => rfl
    refine ⟨by simp [PipelineComponent.call, h], fun t => ?_⟩
    simp [PipelineComponent.call, hsame t, h]

/-- C6 witness: an asynchronous component yields the scheduled task plan
carrying its timeout; a synchronous one yields the inline plan. -/
theorem c6_call_envelope_witness :
    (sampleComponent (some true) true (some "p")).call none
      = CallPlan.awaitableTask none ∧
    (sampleComponent (some false) true (some "p")).call none
      = CallPlan.inlineResult none :=
  ⟨(c6_call_envelope (sampleComponent (some true) true (some "p")) none).1 rfl,
    ((c6_call_envelope (sampleComponent (some false) true (some "p")) none).2
      rfl).1⟩

/-- C7: a timed-out before/after extra handler is non-fatal:
`run_extra_handler` logs exactly one warning (naming the component and
the handler's stage) and returns normally, so no error reaches its
caller and the owning component continues. -/
theorem c7_extra_handler_timeout_nonfatal {F : Type} (c : PipelineComponent F)
    (stage : ExtraHandlerType) :
    c.run_extra_handler stage AwaitOutcome.timedOut =
      ([LogEntry.extraHandlerTimeoutWarning c.name
          (match stage with
            | ExtraHandlerType.BEFORE => c.before_handler.stage
            | ExtraHandlerType.AFTER => c.after_handler.stage)],
        Except.ok ()) := by
  cases stage <;> rfl

/-- C8: when the reserved sub-mapping exists, the runtime-info snapshot
holds the component's name and path (with `"[None]"` for unset), timeout,
resolved asynchronous flag, and a deep copy of the full path-to-state
mapping at the moment of the call; the copy is value-equal to the
mapping, so (values being immutable in the embedding) later writes to the
session state cannot alter an already-taken snapshot. -/
theorem c8_runtime_info_snapshot {F : Type} (c : PipelineComponent F)
    (ctx : Context) (sub : StateDict)
    (h : dictGet ctx.framework_states PIPELINE_STATE_KEY = some sub) :
    c._get_runtime_info ctx =
      Except.ok ⟨c.name.getD "[None]", c.path.getD "[None]", c.timeout,
        c.asynchronous, sub⟩ ∧
    deepcopy sub = sub := by
  constructor
  · unfold PipelineComponent._get_runtime_info
    rw [h]
    rfl
  · rfl

/-- C8 witness: a concrete snapshot over a one-entry state mapping. -/
theorem c8_runtime_info_snapshot_witness :
    (sampleComponent none false (some "p"))._get_runtime_info
        (Context.mk [(PIPELINE_STATE_KEY, [(some "p", "FINISHED")])]) =
      Except.ok ⟨"svc", "p", none, false, [(some "p", "FINISHED")]⟩ ∧
    deepcopy [(some "p", "FINISHED")] = [(some "p", "FINISHED")] :=
  c8_runtime_info_snapshot (sampleComponent none false (some "p"))
    (Context.mk [(PIPELINE_STATE_KEY, [(some "p", "FINISHED")])])
    [(some "p", "FINISHED")] rfl

/-- C9: registering a global extra handler with a `BEFORE` tag appends it
to the end of the before-handler's callable list, and with an `AFTER` tag
to the end of the after-handler's callable list, leaving the other list
unchanged. -/
theorem c9_add_extra_handler_appends {F : Type} (c : PipelineComponent F)
    (tag : GlobalExtraHandlerType) (f : F) :
    ((c.add_extra_handler tag f).before_handler.functions,
      (c.add_extra_handler tag f).after_handler.functions) =
      match tag with
      | GlobalExtraHandlerType.BEFORE =>
        (c.before_handler.functions ++ [f], c.after_handler.functions)
      | GlobalExtraHandlerType.AFTER =>
        (c.before_handler.functions, c.after_handler.functions ++ [f]) := by
  cases tag <;> rfl

/-- C10: writing a state tag and reading it back (with any default)
returns exactly the written member — the tag is stored by its name string
and decoded back by enum indexing — and entries stored under every other
path are left unchanged by the write. -/
theorem c10_set_get_roundtrip {F : Type} (c : PipelineComponent F)
    (ctx : Context) (v : ComponentExecutionState)
    (d : Option ComponentExecutionState) (q : Option String)
    (hq : q ≠ c.path) :
    c.get_state (c._set_state ctx v) d = Except.ok v ∧
    (∀ sub sub',
      dictGet ctx.framework_states PIPELINE_STATE_KEY = some sub →
      dictGet (c._set_state ctx v).framework_states PIPELINE_STATE_KEY
        = some sub' →
      dictGet sub' q = dictGet sub q) := by
  constructor
  · unfold PipelineComponent.get_state
    rw [set_state_framework_states c ctx v]
    simp [dictGet_dictSet_self, ComponentExecutionState.getItem, fromName_name]
  · intro sub sub' h h'
    rw [set_state_framework_states c ctx v, h] at h'
    simp only [Option.getD_some, Option.some.injEq] at h'
    rw [← h']
    exact dictGet_dictSet_ne sub c.path q v.name hq

/-- C10 witness: writing `FAILED` at path `p` over a state that already
maps path `q`, then reading back with default `NOT_RUN`, returns `FAILED`;
the entry at `q` is untouched. -/
theorem c10_set_get_roundtrip_witness :
    (sampleComponent none false (some "p")).get_state
        ((sampleComponent none false (some "p"))._set_state
          (Context.mk [(PIPELINE_STATE_KEY, [(some "q", "FINISHED")])])
          ComponentExecutionState.FAILED)
        (some ComponentExecutionState.NOT_RUN)
      = Except.ok ComponentExecutionState.FAILED ∧
    dictGet (dictSet [(some "q", "FINISHED")] (some "p") "FAILED") (some "q")
      = dictGet [(some "q", "FINISHED")] (some "q") :=
  ⟨(c10_set_get_roundtrip (sampleComponent none false (some "p"))
      (Context.mk [(PIPELINE_STATE_KEY, [(some "q", "FINISHED")])])
      ComponentExecutionState.FAILED (some ComponentExecutionState.NOT_RUN)
      (some "q") (by decide)).1,
    (c10_set_get_roundtrip (sampleComponent none false (some "p"))
      (Context.mk [(PIPELINE_STATE_KEY, [(some "q", "FINISHED")])])
      ComponentExecutionState.FAILED (some ComponentExecutionState.NOT_RUN)
      (some "q") (by decide)).2
      [(some "q", "FINISHED")]
      (dictSet [(some "q", "FINISHED")] (some "p") "FAILED")
      rfl (set_state_framework_states _ _ _)⟩

end DffStructure
